import Mathlib

/-!
Shallow embedding of `src/mongo/db/auth/authz_manager_external_state.cpp`
(the `AuthzManagerExternalState` adapter between the authorization manager
and the backing document store), together with theorems settling the
specification claims about it.

The store collaborator primitives (`_findUser`, `insert`, `update`,
`remove`) and the external db-name validity check
(`NamespaceString::validDBName`) are declared outside this translation
unit; they are modelled as explicit function parameters.  Lookups issued
through `_findUser` are additionally recorded in a call trace so that
"no store call is made" and "queries collection C with filter F" are
directly statable.
-/

namespace Mongo

/-- Error codes used by the adapter.  `other n` stands for any further
member of the `ErrorCodes` enumeration, which the adapter passes through
unchanged. -/
inductive ErrorCodes where
  | OK
  | InternalError
  | BadValue
  | UnsupportedFormat
  | UserNotFound
  | DuplicateKey
  | UnknownError
  | UserModificationFailed
  | NoMatchingDocument
  | other (code : Nat)
deriving DecidableEq, Repr

/-- `mongo::Status`: an error code plus a human-readable reason. -/
structure Status where
  code : ErrorCodes
  reason : String
deriving DecidableEq, Repr

/-- `Status::OK()`. -/
def Status.OK : Status := ⟨ErrorCodes.OK, ""⟩

/-- `Status::isOK()`. -/
def Status.isOK (s : Status) : Bool := s.code = ErrorCodes.OK

/-- BSON values, as far as this adapter inspects them: strings, explicit
nulls, and anything else (opaque). -/
inductive BSONValue where
  | str (s : String)
  | null
  | other (tag : Nat)
deriving DecidableEq, Repr

/-- A BSON object: an ordered list of (field name, value) pairs. -/
abbrev BSONObj := List (String × BSONValue)

/-- First value bound to `field`, if any (`BSONObj::operator[]`). -/
def bsonLookup (obj : BSONObj) (field : String) : Option BSONValue :=
  match obj with
  | [] => none
  | (f, v) :: rest => if f = field then some v else bsonLookup rest field

/-- `obj[field].String()`: `some s` when the field is present and holds a
string; `none` models the C++ exception thrown otherwise. -/
def bsonGetString (obj : BSONObj) (field : String) : Option String :=
  match bsonLookup obj field with
  | some (BSONValue.str s) => some s
  | _ => none

/-- `mongo::UserName`: the (user, db/source) pair naming a principal. -/
structure UserName where
  user : String
  db : String
deriving DecidableEq, Repr

/-- `UserName::getUser()`. -/
def UserName.getUser (u : UserName) : String := u.user

/-- `UserName::getDB()`. -/
def UserName.getDB (u : UserName) : String := u.db

/-- Modelled from the spec: the identity's full display form
(`UserName::getFullName()`, declared outside this translation unit) is
`<user>@<db>`. -/
def UserName.getFullName (u : UserName) : String := u.user ++ "@" ++ u.db

/-- `UserName::toString()`, same display form as `getFullName`. -/
def UserName.toString (u : UserName) : String := u.getFullName

/-- Modelled from the spec: the reserved internal system identity
(`internalSecurity.user->getName()`, defined outside this translation
unit); one fixed sentinel value that must never be resolvable. -/
def internalUserName : UserName := ⟨"__system", "local"⟩

/-- Modelled from the spec: the V1 user-name field constant
(`AuthorizationManager::V1_USER_NAME_FIELD_NAME`, declared outside this
translation unit).  The concrete string is immaterial to the claims. -/
def V1_USER_NAME_FIELD_NAME : String := "user"

/-- Modelled from the spec: the V1 source field constant
(`AuthorizationManager::V1_USER_SOURCE_FIELD_NAME`). -/
def V1_USER_SOURCE_FIELD_NAME : String := "userSource"

/-- Modelled from the spec: the V2 user-name field constant
(`AuthorizationManager::USER_NAME_FIELD_NAME`). -/
def USER_NAME_FIELD_NAME : String := "user"

/-- Modelled from the spec: the V2 source field constant
(`AuthorizationManager::USER_SOURCE_FIELD_NAME`). -/
def USER_SOURCE_FIELD_NAME : String := "userSource"

/-- Modelled from the spec: `DuplicateIdentity` is the spec's domain-level
name for the error kind `insertPrivilegeDocument` produces on a duplicate;
the source reuses `ErrorCodes::DuplicateKey` for it. -/
def DuplicateIdentity : ErrorCodes := ErrorCodes.DuplicateKey

/-- Modelled from the spec: `IdentityModificationFailed` is the spec's
name for `ErrorCodes::UserModificationFailed`. -/
def IdentityModificationFailed : ErrorCodes := ErrorCodes.UserModificationFailed

/-- Result of `getPrivilegeDocument`: the returned `Status`, the document
written through `*result` on success, and the trace of `_findUser` calls
issued. -/
structure GetPrivDocResult where
  status : Status
  result : Option BSONObj
  findCalls : List (String × BSONObj)
deriving DecidableEq, Repr

/-- The query stage of `AuthzManagerExternalState::getPrivilegeDocument`
(source lines 75-91): issue the single `_findUser` lookup and translate a
`UserNotFound` store failure into the detailed diagnostic status. -/
def queryStage (findUser : String → BSONObj → Status × BSONObj)
    (userName : UserName) (usersNamespace : String) (query : BSONObj) :
    GetPrivDocResult :=
  let found := (findUser usersNamespace query).1
  let userBSONObj := (findUser usersNamespace query).2
  if ¬ found.isOK then
    if found.code = ErrorCodes.UserNotFound then
      ⟨⟨ErrorCodes.UserNotFound,
        "auth: couldn\x27t find user " ++ userName.toString ++ ", " ++ usersNamespace⟩,
       none, [(usersNamespace, query)]⟩
    else
      ⟨found, none, [(usersNamespace, query)]⟩
  else
    ⟨Status.OK, some userBSONObj, [(usersNamespace, query)]⟩

/-- `AuthzManagerExternalState::getPrivilegeDocument`.  `validDBName` is
`NamespaceString::validDBName` and `findUser` is the store's `_findUser`
primitive, both external collaborators. -/
def getPrivilegeDocument (validDBName : String → Bool)
    (findUser : String → BSONObj → Status × BSONObj)
    (userName : UserName) (authzVersion : Int) : GetPrivDocResult :=
  if userName = internalUserName then
    ⟨⟨ErrorCodes.InternalError, "Requested privilege document for the internal user"⟩,
     none, []⟩
  else
    let dbname := userName.getDB
    if ¬ validDBName dbname then
      ⟨⟨ErrorCodes.BadValue, "Bad database name \"" ++ dbname ++ "\""⟩, none, []⟩
    else if authzVersion = 1 then
      queryStage findUser userName (dbname ++ ".system.users")
        [(V1_USER_NAME_FIELD_NAME, BSONValue.str userName.getUser),
         (V1_USER_SOURCE_FIELD_NAME, BSONValue.null)]
    else if authzVersion = 2 then
      queryStage findUser userName "admin.system.users"
        [(USER_NAME_FIELD_NAME, BSONValue.str userName.getUser),
         (USER_SOURCE_FIELD_NAME, BSONValue.str userName.getDB)]
    else
      ⟨⟨ErrorCodes.UnsupportedFormat,
        "Unrecognized authorization format version: " ++ ToString.toString authzVersion⟩,
       none, []⟩

/-- `AuthzManagerExternalState::hasAnyPrivilegeDocuments`. -/
def hasAnyPrivilegeDocuments
    (findUser : String → BSONObj → Status × BSONObj) : Bool :=
  (findUser "admin.system.users" []).1.isOK

/-- `AuthzManagerExternalState::insertPrivilegeDocument`.  `insert` is the
store's insert primitive.  `none` models the C++ exception escaping when
the duplicate-key diagnostic extracts a missing or non-string field. -/
def insertPrivilegeDocument (insert : String → BSONObj → BSONObj → Status)
    (dbname : String) (userObj : BSONObj) (writeConcern : BSONObj) :
    Option Status :=
  let status := insert "admin.system.users" userObj writeConcern
  if status.isOK then
    some status
  else if status.code = ErrorCodes.DuplicateKey then
    match bsonGetString userObj USER_NAME_FIELD_NAME,
          bsonGetString userObj USER_SOURCE_FIELD_NAME with
    | some name, some source =>
        some ⟨ErrorCodes.DuplicateKey,
              "User \"" ++ name ++ "@" ++ source ++ "\" already exists"⟩
    | _, _ => none
  else if status.code = ErrorCodes.UnknownError then
    some ⟨ErrorCodes.UserModificationFailed, status.reason⟩
  else
    some status

/-- `AuthzManagerExternalState::updateOne` (the single-document update
guard).  `update` is the store's general update primitive, returning a
status and the affected count.  `debugBuild` selects whether the
`dassert` on the affected count executes (it is compiled out in
optimized builds); `none` models the assertion firing. -/
def updateOne (debugBuild : Bool)
    (update : String → BSONObj → BSONObj → Bool → Bool → BSONObj → Status × Int)
    (collectionName : String) (query updatePattern : BSONObj)
    (upsert : Bool) (writeConcern : BSONObj) : Option Status :=
  let status := (update collectionName query updatePattern upsert false writeConcern).1
  let numUpdated := (update collectionName query updatePattern upsert false writeConcern).2
  if ¬ status.isOK then
    some status
  else if debugBuild ∧ ¬ (numUpdated = 1 ∨ numUpdated = 0) then
    none
  else if numUpdated = 0 then
    some ⟨ErrorCodes.NoMatchingDocument, "No document found"⟩
  else
    some Status.OK

/-- The filter `updatePrivilegeDocument` builds against the V2 users
collection (source lines 127-128). -/
def updateUserFilter (user : UserName) : BSONObj :=
  [(USER_NAME_FIELD_NAME, BSONValue.str user.getUser),
   (USER_SOURCE_FIELD_NAME, BSONValue.str user.getDB)]

/-- `AuthzManagerExternalState::updatePrivilegeDocument`. -/
def updatePrivilegeDocument (debugBuild : Bool)
    (update : String → BSONObj → BSONObj → Bool → Bool → BSONObj → Status × Int)
    (user : UserName) (updateObj writeConcern : BSONObj) : Option Status :=
  match updateOne debugBuild update "admin.system.users" (updateUserFilter user)
      updateObj false writeConcern with
  | none => none
  | some status =>
    if status.isOK then
      some status
    else if status.code = ErrorCodes.NoMatchingDocument then
      some ⟨ErrorCodes.UserNotFound, "User " ++ user.getFullName ++ " not found"⟩
    else if status.code = ErrorCodes.UnknownError then
      some ⟨ErrorCodes.UserModificationFailed, status.reason⟩
    else
      some status

/-- `AuthzManagerExternalState::removePrivilegeDocuments`.  `remove` is
the store's remove primitive, returning a status and the removed count
written through `*numRemoved`. -/
def removePrivilegeDocuments (remove : String → BSONObj → BSONObj → Status × Int)
    (query writeConcern : BSONObj) : Status × Int :=
  let status := (remove "admin.system.users" query writeConcern).1
  let numRemoved := (remove "admin.system.users" query writeConcern).2
  if status.code = ErrorCodes.UnknownError then
    (⟨ErrorCodes.UserModificationFailed, status.reason⟩, numRemoved)
  else
    (status, numRemoved)

/-! ## Helper lemmas -/

/-- The query stage issues exactly one `_findUser` call, on the namespace
and query it was handed. -/
lemma queryStage_findCalls (findUser : String → BSONObj → Status × BSONObj)
    (userName : UserName) (ns : String) (q : BSONObj) :
    (queryStage findUser userName ns q).findCalls = [(ns, q)] := by
  simp only [queryStage]
  split
  · split <;> rfl
  · rfl

/-- A status whose code is `UserNotFound` is not OK. -/
lemma code_userNotFound_not_isOK (s : Status)
    (h : s.code = ErrorCodes.UserNotFound) : s.isOK = false := by
  simp [Status.isOK, h]

/-- If the store lookup reports `UserNotFound`, the query stage returns
the detailed diagnostic status. -/
lemma queryStage_status_userNotFound (findUser : String → BSONObj → Status × BSONObj)
    (userName : UserName) (ns : String) (q : BSONObj)
    (h : (findUser ns q).1.code = ErrorCodes.UserNotFound) :
    (queryStage findUser userName ns q).status =
      ⟨ErrorCodes.UserNotFound,
       "auth: couldn\x27t find user " ++ userName.toString ++ ", " ++ ns⟩ := by
  have hno := code_userNotFound_not_isOK (findUser ns q).1 h
  simp [queryStage, hno, h]

/-- Any other store lookup failure propagates unchanged through the query
stage. -/
lemma queryStage_status_other (findUser : String → BSONObj → Status × BSONObj)
    (userName : UserName) (ns : String) (q : BSONObj)
    (h1 : (findUser ns q).1.isOK = false)
    (h2 : (findUser ns q).1.code ≠ ErrorCodes.UserNotFound) :
    (queryStage findUser userName ns q).status = (findUser ns q).1 := by
  simp [queryStage, h1, h2]

/-- When `getPrivilegeDocument` issued a `_findUser` call at all, its whole
result is that of the query stage on the recorded namespace and query. -/
lemma getPrivilegeDocument_eq_queryStage (validDBName : String → Bool)
    (findUser : String → BSONObj → Status × BSONObj)
    (userName : UserName) (authzVersion : Int) (ns : String) (q : BSONObj)
    (htrace : (getPrivilegeDocument validDBName findUser userName authzVersion).findCalls
      = [(ns, q)]) :
    getPrivilegeDocument validDBName findUser userName authzVersion =
      queryStage findUser userName ns q := by
  by_cases h1 : userName = internalUserName
  · simp [getPrivilegeDocument, h1] at htrace
  · by_cases h2 : validDBName userName.getDB = true
    · by_cases h3 : authzVersion = 1
      · subst h3
        simp [getPrivilegeDocument, h1, h2, queryStage_findCalls] at htrace ⊢
        rw [← htrace.1, ← htrace.2]
      · by_cases h4 : authzVersion = 2
        · subst h4
          simp [getPrivilegeDocument, h1, h2, queryStage_findCalls] at htrace ⊢
          rw [← htrace.1, ← htrace.2]
        · simp [getPrivilegeDocument, h1, h2, h3, h4] at htrace
    · simp [getPrivilegeDocument, h1, h2] at htrace

/-! ## Claims -/

/-- C1: For every identity and every schema version, calling
`getPrivilegeDocument` with the identity equal to the reserved internal
system identity returns an `InternalError` failure, and no store lookup
(`_findUser`) is performed (the call trace is empty, for every store). -/
theorem C1_internal_identity_internalError_no_lookup
    (validDBName : String → Bool)
    (findUser : String → BSONObj → Status × BSONObj)
    (userName : UserName) (authzVersion : Int)
    (h : userName = internalUserName) :
    getPrivilegeDocument validDBName findUser userName authzVersion =
      ⟨⟨ErrorCodes.InternalError, "Requested privilege document for the internal user"⟩,
       none, []⟩ := by
  subst h
  simp [getPrivilegeDocument]

theorem C1_internal_identity_internalError_no_lookup_witness :
    getPrivilegeDocument (fun _ => true) (fun _ _ => (Status.OK, []))
      internalUserName 2 =
      ⟨⟨ErrorCodes.InternalError, "Requested privilege document for the internal user"⟩,
       none, []⟩ :=
  C1_internal_identity_internalError_no_lookup _ _ _ _ rfl

/-- C2: For every non-internal identity whose db component passes the
validity check, `getPrivilegeDocument` with version 1 issues exactly one
store query against `<db>.system.users` with filter
`{V1 user-name field = user, V1 source field = null}`, and with version 2
exactly one query against `admin.system.users` with filter
`{user-name field = user, source field = db}`. -/
theorem C2_resolved_collection_and_filter
    (validDBName : String → Bool)
    (findUser : String → BSONObj → Status × BSONObj)
    (userName : UserName)
    (hint : userName ≠ internalUserName)
    (hdb : validDBName userName.getDB = true) :
    (getPrivilegeDocument validDBName findUser userName 1).findCalls =
      [(userName.getDB ++ ".system.users",
        [(V1_USER_NAME_FIELD_NAME, BSONValue.str userName.getUser),
         (V1_USER_SOURCE_FIELD_NAME, BSONValue.null)])]
    ∧ (getPrivilegeDocument validDBName findUser userName 2).findCalls =
      [("admin.system.users",
        [(USER_NAME_FIELD_NAME, BSONValue.str userName.getUser),
         (USER_SOURCE_FIELD_NAME, BSONValue.str userName.getDB)])] := by
  constructor
  · simp [getPrivilegeDocument, hint, hdb, queryStage_findCalls]
  · simp [getPrivilegeDocument, hint, hdb, queryStage_findCalls]

theorem C2_resolved_collection_and_filter_witness :
    (getPrivilegeDocument (fun _ => true) (fun _ _ => (Status.OK, []))
        ⟨"alice", "db1"⟩ 1).findCalls =
      [("db1.system.users",
        [(V1_USER_NAME_FIELD_NAME, BSONValue.str "alice"),
         (V1_USER_SOURCE_FIELD_NAME, BSONValue.null)])]
    ∧ (getPrivilegeDocument (fun _ => true) (fun _ _ => (Status.OK, []))
        ⟨"alice", "db1"⟩ 2).findCalls =
      [("admin.system.users",
        [(USER_NAME_FIELD_NAME, BSONValue.str "alice"),
         (USER_SOURCE_FIELD_NAME, BSONValue.str "db1")])] :=
  C2_resolved_collection_and_filter _ _ _ (by decide) rfl

/-- C5: For every integer version other than 1 and 2, `getPrivilegeDocument`
for a valid non-internal identity fails with `UnsupportedFormat`, the
failure message contains that numeric version, and no store lookup is
made (empty call trace, for every store). -/
theorem C5_unsupported_version
    (validDBName : String → Bool)
    (findUser : String → BSONObj → Status × BSONObj)
    (userName : UserName) (authzVersion : Int)
    (hint : userName ≠ internalUserName)
    (hdb : validDBName userName.getDB = true)
    (h1 : authzVersion ≠ 1) (h2 : authzVersion ≠ 2) :
    getPrivilegeDocument validDBName findUser userName authzVersion =
      ⟨⟨ErrorCodes.UnsupportedFormat,
        "Unrecognized authorization format version: " ++ ToString.toString authzVersion⟩,
       none, []⟩
    ∧ ∃ a, "Unrecognized authorization format version: " ++ ToString.toString authzVersion
        = a ++ ToString.toString authzVersion := by
  refine ⟨?_, "Unrecognized authorization format version: ", rfl⟩
  simp [getPrivilegeDocument, hint, hdb, h1, h2]

theorem C5_unsupported_version_witness :
    getPrivilegeDocument (fun _ => true) (fun _ _ => (Status.OK, []))
        ⟨"alice", "db1"⟩ 7 =
      ⟨⟨ErrorCodes.UnsupportedFormat, "Unrecognized authorization format version: 7"⟩,
       none, []⟩
    ∧ ∃ a, "Unrecognized authorization format version: 7" = a ++ "7" := by
  have h := C5_unsupported_version (fun _ => true) (fun _ _ => (Status.OK, []))
    ⟨"alice", "db1"⟩ 7 (by decide) rfl (by decide) (by decide)
  simpa using h

/-- C6: For every non-internal identity whose db component fails the
validity check and every version, `getPrivilegeDocument` fails with
`BadValue`, the message includes the db name, and no store call is made
(empty call trace, for every store). -/
theorem C6_bad_dbname
    (validDBName : String → Bool)
    (findUser : String → BSONObj → Status × BSONObj)
    (userName : UserName) (authzVersion : Int)
    (hint : userName ≠ internalUserName)
    (hdb : validDBName userName.getDB = false) :
    getPrivilegeDocument validDBName findUser userName authzVersion =
      ⟨⟨ErrorCodes.BadValue, "Bad database name \"" ++ userName.getDB ++ "\""⟩,
       none, []⟩
    ∧ ∃ a b, "Bad database name \"" ++ userName.getDB ++ "\""
        = a ++ userName.getDB ++ b := by
  refine ⟨?_, "Bad database name \"", "\"", rfl⟩
  simp [getPrivilegeDocument, hint, hdb]

theorem C6_bad_dbname_witness :
    getPrivilegeDocument (fun _ => false) (fun _ _ => (Status.OK, []))
        ⟨"alice", "bad$db"⟩ 2 =
      ⟨⟨ErrorCodes.BadValue, "Bad database name \"bad$db\""⟩, none, []⟩
    ∧ ∃ a b, "Bad database name \"bad$db\"" = a ++ "bad$db" ++ b := by
  have h := C6_bad_dbname (fun _ => false) (fun _ _ => (Status.OK, []))
    ⟨"alice", "bad$db"⟩ 2 (by decide) rfl
  simpa using h

/-- C7: Whenever `getPrivilegeDocument` issued its store lookup (i.e.
resolution succeeded and `_findUser` was called on namespace `ns` with
query `q`): a `UserNotFound` store failure becomes a `UserNotFound`
status whose message embeds the identity's full display form and the
resolved collection path, and every other store failure is returned
unchanged. -/
theorem C7_store_failure_translation
    (validDBName : String → Bool)
    (findUser : String → BSONObj → Status × BSONObj)
    (userName : UserName) (authzVersion : Int) (ns : String) (q : BSONObj)
    (htrace : (getPrivilegeDocument validDBName findUser userName authzVersion).findCalls
      = [(ns, q)]) :
    ((findUser ns q).1.code = ErrorCodes.UserNotFound →
      (getPrivilegeDocument validDBName findUser userName authzVersion).status =
        ⟨ErrorCodes.UserNotFound,
         "auth: couldn\x27t find user " ++ userName.toString ++ ", " ++ ns⟩
      ∧ ∃ a b, "auth: couldn\x27t find user " ++ userName.toString ++ ", " ++ ns
          = a ++ userName.toString ++ b ++ ns)
    ∧ ((findUser ns q).1.isOK = false →
        (findUser ns q).1.code ≠ ErrorCodes.UserNotFound →
        (getPrivilegeDocument validDBName findUser userName authzVersion).status =
          (findUser ns q).1) := by
  rw [getPrivilegeDocument_eq_queryStage validDBName findUser userName authzVersion ns q htrace]
  constructor
  · intro hnf
    exact ⟨queryStage_status_userNotFound findUser userName ns q hnf,
           "auth: couldn\x27t find user ", ", ", rfl⟩
  · intro hfail hother
    exact queryStage_status_other findUser userName ns q hfail hother

theorem C7_store_failure_translation_witness :
    (getPrivilegeDocument (fun _ => true)
        (fun _ _ => (⟨ErrorCodes.UserNotFound, "not found"⟩, []))
        ⟨"alice", "db1"⟩ 2).status =
      ⟨ErrorCodes.UserNotFound, "auth: couldn\x27t find user alice@db1, admin.system.users"⟩
    ∧ (getPrivilegeDocument (fun _ => true)
        (fun _ _ => (⟨ErrorCodes.other 5, "boom"⟩, []))
        ⟨"alice", "db1"⟩ 2).status = ⟨ErrorCodes.other 5, "boom"⟩ := by
  constructor
  · have h := (C7_store_failure_translation (fun _ => true)
      (fun _ _ => (⟨ErrorCodes.UserNotFound, "not found"⟩, []))
      ⟨"alice", "db1"⟩ 2 "admin.system.users"
      [(USER_NAME_FIELD_NAME, BSONValue.str "alice"),
       (USER_SOURCE_FIELD_NAME, BSONValue.str "db1")] rfl).1 rfl
    simpa [UserName.toString, UserName.getFullName] using h.1
  · exact (C7_store_failure_translation (fun _ => true)
      (fun _ _ => (⟨ErrorCodes.other 5, "boom"⟩, []))
      ⟨"alice", "db1"⟩ 2 "admin.system.users"
      [(USER_NAME_FIELD_NAME, BSONValue.str "alice"),
       (USER_SOURCE_FIELD_NAME, BSONValue.str "db1")] rfl).2 rfl (by decide)

/-- C3 counterexample: with the debug assertion compiled out (as in
optimized builds), a store update reporting success with affected-count 2
makes `updateOne` return success — the affected-count above one IS
silently accepted, contradicting the claim as stated. -/
theorem C3_counterexample_release_accepts_two :
    updateOne false (fun _ _ _ _ _ _ => (Status.OK, 2))
      "admin.system.users" [] [] false [] = some Status.OK := by
  decide

/-- C3 (amended): when the store's update primitive succeeds, an
affected-count of 0 yields `NoMatchingDocument` and an affected-count of
1 yields success (in every build); an affected-count greater than 1
triggers the `dassert` (an internal fault, never success) in builds where
the assertion is compiled in. -/
theorem C3_update_guard
    (debugBuild : Bool)
    (update : String → BSONObj → BSONObj → Bool → Bool → BSONObj → Status × Int)
    (c : String) (q p : BSONObj) (u : Bool) (w : BSONObj)
    (hok : (update c q p u false w).1.isOK = true) :
    ((update c q p u false w).2 = 0 →
      updateOne debugBuild update c q p u w =
        some ⟨ErrorCodes.NoMatchingDocument, "No document found"⟩)
    ∧ ((update c q p u false w).2 = 1 →
      updateOne debugBuild update c q p u w = some Status.OK)
    ∧ (1 < (update c q p u false w).2 →
      updateOne true update c q p u w = none) := by
  refine ⟨fun hn => ?_, fun hn => ?_, fun hn => ?_⟩
  · simp [updateOne, hok, hn]
  · simp [updateOne, hok, hn]
  · have h1 : (update c q p u false w).2 ≠ 1 := by omega
    have h0 : (update c q p u false w).2 ≠ 0 := by omega
    simp [updateOne, hok, h1, h0]

theorem C3_update_guard_witness :
    updateOne false (fun _ _ _ _ _ _ => (Status.OK, 0)) "c" [] [] false [] =
      some ⟨ErrorCodes.NoMatchingDocument, "No document found"⟩
    ∧ updateOne false (fun _ _ _ _ _ _ => (Status.OK, 1)) "c" [] [] false [] =
      some Status.OK
    ∧ updateOne true (fun _ _ _ _ _ _ => (Status.OK, 2)) "c" [] [] false [] = none :=
  ⟨(C3_update_guard false (fun _ _ _ _ _ _ => (Status.OK, 0)) "c" [] [] false [] rfl).1 rfl,
   (C3_update_guard false (fun _ _ _ _ _ _ => (Status.OK, 1)) "c" [] [] false [] rfl).2.1 rfl,
   (C3_update_guard true (fun _ _ _ _ _ _ => (Status.OK, 2)) "c" [] [] false [] rfl).2.2
     (by decide)⟩

/-- C4: when the document's user and source fields hold strings `u` and
`s` and the store insert reports `DuplicateKey`, `insertPrivilegeDocument`
fails with the `DuplicateIdentity` kind and a message containing `u@s`
followed by `already exists`, both values extracted from the document. -/
theorem C4_duplicate_key_diagnostic
    (insert : String → BSONObj → BSONObj → Status)
    (dbname : String) (userObj writeConcern : BSONObj) (u s : String)
    (hu : bsonGetString userObj USER_NAME_FIELD_NAME = some u)
    (hs : bsonGetString userObj USER_SOURCE_FIELD_NAME = some s)
    (hdup : (insert "admin.system.users" userObj writeConcern).code
      = ErrorCodes.DuplicateKey) :
    insertPrivilegeDocument insert dbname userObj writeConcern =
      some ⟨DuplicateIdentity, "User \"" ++ u ++ "@" ++ s ++ "\" already exists"⟩
    ∧ ∃ a b, "User \"" ++ u ++ "@" ++ s ++ "\" already exists"
        = a ++ (u ++ "@" ++ s) ++ b ++ "already exists" := by
  constructor
  · have hno : (insert "admin.system.users" userObj writeConcern).isOK = false := by
      simp [Status.isOK, hdup]
    simp [insertPrivilegeDocument, hno, hdup, hu, hs, DuplicateIdentity]
  · refine ⟨"User \"", "\" ", ?_⟩
    have lit : ("\" already exists" : String) = "\" " ++ "already exists" := rfl
    rw [lit]
    simp [String.append_assoc]

theorem C4_duplicate_key_diagnostic_witness :
    insertPrivilegeDocument (fun _ _ _ => ⟨ErrorCodes.DuplicateKey, "E11000"⟩)
      "test" [(USER_NAME_FIELD_NAME, BSONValue.str "alice"),
              (USER_SOURCE_FIELD_NAME, BSONValue.str "db1")] [] =
      some ⟨DuplicateIdentity, "User \"alice@db1\" already exists"⟩
    ∧ ∃ a b, "User \"alice@db1\" already exists"
        = a ++ ("alice" ++ "@" ++ "db1") ++ b ++ "already exists" := by
  have h := C4_duplicate_key_diagnostic (fun _ _ _ => ⟨ErrorCodes.DuplicateKey, "E11000"⟩)
    "test" [(USER_NAME_FIELD_NAME, BSONValue.str "alice"),
            (USER_SOURCE_FIELD_NAME, BSONValue.str "db1")] [] "alice" "db1"
    rfl rfl rfl
  simpa using h

/-- C8: for each of `insertPrivilegeDocument`, `updatePrivilegeDocument`
and `removePrivilegeDocuments`, a store (resp. delegated) `UnknownError`
becomes `IdentityModificationFailed` carrying the original reason text,
and statuses other than the specifically remapped codes pass through
unchanged. -/
theorem C8_unknownError_remap_and_passthrough :
    (∀ (insert : String → BSONObj → BSONObj → Status) (dbname : String)
        (userObj writeConcern : BSONObj),
      ((insert "admin.system.users" userObj writeConcern).code = ErrorCodes.UnknownError →
        insertPrivilegeDocument insert dbname userObj writeConcern =
          some ⟨IdentityModificationFailed,
                (insert "admin.system.users" userObj writeConcern).reason⟩)
      ∧ ((insert "admin.system.users" userObj writeConcern).code ≠ ErrorCodes.DuplicateKey →
         (insert "admin.system.users" userObj writeConcern).code ≠ ErrorCodes.UnknownError →
         insertPrivilegeDocument insert dbname userObj writeConcern =
           some (insert "admin.system.users" userObj writeConcern)))
    ∧ (∀ (debugBuild : Bool)
        (update : String → BSONObj → BSONObj → Bool → Bool → BSONObj → Status × Int)
        (user : UserName) (updateObj writeConcern : BSONObj) (s : Status),
      updateOne debugBuild update "admin.system.users" (updateUserFilter user)
          updateObj false writeConcern = some s →
        ((s.code = ErrorCodes.UnknownError →
          updatePrivilegeDocument debugBuild update user updateObj writeConcern =
            some ⟨IdentityModificationFailed, s.reason⟩)
        ∧ (s.code ≠ ErrorCodes.NoMatchingDocument → s.code ≠ ErrorCodes.UnknownError →
           updatePrivilegeDocument debugBuild update user updateObj writeConcern = some s)))
    ∧ (∀ (remove : String → BSONObj → BSONObj → Status × Int)
        (query writeConcern : BSONObj),
      ((remove "admin.system.users" query writeConcern).1.code = ErrorCodes.UnknownError →
        removePrivilegeDocuments remove query writeConcern =
          (⟨IdentityModificationFailed,
            (remove "admin.system.users" query writeConcern).1.reason⟩,
           (remove "admin.system.users" query writeConcern).2))
      ∧ ((remove "admin.system.users" query writeConcern).1.code ≠ ErrorCodes.UnknownError →
         removePrivilegeDocuments remove query writeConcern =
           remove "admin.system.users" query writeConcern)) := by
  refine ⟨fun insert dbname userObj writeConcern => ⟨fun hu => ?_, fun hd hu => ?_⟩,
          fun debugBuild update user updateObj writeConcern s hs => ⟨fun hu => ?_, fun hn hu => ?_⟩,
          fun remove query writeConcern => ⟨fun hu => ?_, fun hu => ?_⟩⟩
  · have hno : (insert "admin.system.users" userObj writeConcern).isOK = false := by
      simp [Status.isOK, hu]
    simp [insertPrivilegeDocument, hno, hu, IdentityModificationFailed]
  · by_cases hok : (insert "admin.system.users" userObj writeConcern).isOK = true
    · simp [insertPrivilegeDocument, hok]
    · simp [insertPrivilegeDocument, hok, hd, hu]
  · have hno : s.isOK = false := by simp [Status.isOK, hu]
    simp [updatePrivilegeDocument, hs, hno, hu, IdentityModificationFailed]
  · by_cases hok : s.isOK = true
    · simp [updatePrivilegeDocument, hs, hok]
    · simp [updatePrivilegeDocument, hs, hok, hn, hu]
  · simp [removePrivilegeDocuments, hu, IdentityModificationFailed]
  · simp [removePrivilegeDocuments, hu]

theorem C8_unknownError_remap_and_passthrough_witness :
    insertPrivilegeDocument (fun _ _ _ => ⟨ErrorCodes.UnknownError, "disk"⟩) "d" [] [] =
      some ⟨IdentityModificationFailed, "disk"⟩
    ∧ insertPrivilegeDocument (fun _ _ _ => ⟨ErrorCodes.other 9, "net"⟩) "d" [] [] =
      some ⟨ErrorCodes.other 9, "net"⟩
    ∧ updatePrivilegeDocument false (fun _ _ _ _ _ _ => (⟨ErrorCodes.UnknownError, "io"⟩, 0))
        ⟨"alice", "db1"⟩ [] [] = some ⟨IdentityModificationFailed, "io"⟩
    ∧ updatePrivilegeDocument false (fun _ _ _ _ _ _ => (⟨ErrorCodes.other 9, "net"⟩, 0))
        ⟨"alice", "db1"⟩ [] [] = some ⟨ErrorCodes.other 9, "net"⟩
    ∧ removePrivilegeDocuments (fun _ _ _ => (⟨ErrorCodes.UnknownError, "io"⟩, 0)) [] [] =
      (⟨IdentityModificationFailed, "io"⟩, 0)
    ∧ removePrivilegeDocuments (fun _ _ _ => (⟨ErrorCodes.other 9, "net"⟩, 3)) [] [] =
      (⟨ErrorCodes.other 9, "net"⟩, 3) :=
  ⟨(C8_unknownError_remap_and_passthrough.1
      (fun _ _ _ => ⟨ErrorCodes.UnknownError, "disk"⟩) "d" [] []).1 rfl,
   (C8_unknownError_remap_and_passthrough.1
      (fun _ _ _ => ⟨ErrorCodes.other 9, "net"⟩) "d" [] []).2 (by decide) (by decide),
   (C8_unknownError_remap_and_passthrough.2.1 false
      (fun _ _ _ _ _ _ => (⟨ErrorCodes.UnknownError, "io"⟩, 0))
      ⟨"alice", "db1"⟩ [] [] ⟨ErrorCodes.UnknownError, "io"⟩ (by decide)).1 rfl,
   (C8_unknownError_remap_and_passthrough.2.1 false
      (fun _ _ _ _ _ _ => (⟨ErrorCodes.other 9, "net"⟩, 0))
      ⟨"alice", "db1"⟩ [] [] ⟨ErrorCodes.other 9, "net"⟩ (by decide)).2
      (by decide) (by decide),
   (C8_unknownError_remap_and_passthrough.2.2
      (fun _ _ _ => (⟨ErrorCodes.UnknownError, "io"⟩, 0)) [] []).1 rfl,
   (C8_unknownError_remap_and_passthrough.2.2
      (fun _ _ _ => (⟨ErrorCodes.other 9, "net"⟩, 3)) [] []).2 (by decide)⟩

/-- C9: when the delegated `updateOne` call made by
`updatePrivilegeDocument` fails with `NoMatchingDocument`, the result is
a `UserNotFound` failure whose message includes the identity's full
display form. -/
theorem C9_update_miss_userNotFound
    (debugBuild : Bool)
    (update : String → BSONObj → BSONObj → Bool → Bool → BSONObj → Status × Int)
    (user : UserName) (updateObj writeConcern : BSONObj) (s : Status)
    (hs : updateOne debugBuild update "admin.system.users" (updateUserFilter user)
      updateObj false writeConcern = some s)
    (hnmd : s.code = ErrorCodes.NoMatchingDocument) :
    updatePrivilegeDocument debugBuild update user updateObj writeConcern =
      some ⟨ErrorCodes.UserNotFound, "User " ++ user.getFullName ++ " not found"⟩
    ∧ ∃ a b, "User " ++ user.getFullName ++ " not found"
        = a ++ user.getFullName ++ b := by
  refine ⟨?_, "User ", " not found", rfl⟩
  have hno : s.isOK = false := by simp [Status.isOK, hnmd]
  simp [updatePrivilegeDocument, hs, hno, hnmd]

theorem C9_update_miss_userNotFound_witness :
    updatePrivilegeDocument false (fun _ _ _ _ _ _ => (Status.OK, 0))
        ⟨"alice", "db1"⟩ [] [] =
      some ⟨ErrorCodes.UserNotFound, "User alice@db1 not found"⟩
    ∧ ∃ a b, "User alice@db1 not found" = a ++ "alice@db1" ++ b := by
  have h := C9_update_miss_userNotFound false (fun _ _ _ _ _ _ => (Status.OK, 0))
    ⟨"alice", "db1"⟩ [] [] ⟨ErrorCodes.NoMatchingDocument, "No document found"⟩
    (by decide) rfl
  simpa [UserName.getFullName] using h

/-- C10: the `dbname` parameter of `insertPrivilegeDocument` has no effect
on its behaviour: for every document and write concern, any two stores
agreeing on the fixed collection `admin.system.users` — in particular the
same store — and any two `dbname` strings yield the same result. -/
theorem C10_dbname_has_no_effect
    (insert1 insert2 : String → BSONObj → BSONObj → Status)
    (dbname1 dbname2 : String) (userObj writeConcern : BSONObj)
    (h : insert1 "admin.system.users" userObj writeConcern
      = insert2 "admin.system.users" userObj writeConcern) :
    insertPrivilegeDocument insert1 dbname1 userObj writeConcern =
      insertPrivilegeDocument insert2 dbname2 userObj writeConcern := by
  simp only [insertPrivilegeDocument, h]

theorem C10_dbname_has_no_effect_witness :
    insertPrivilegeDocument (fun _ _ _ => Status.OK) "db1" [] [] =
      insertPrivilegeDocument
        (fun c _ _ => if c = "other" then ⟨ErrorCodes.UnknownError, "e"⟩ else Status.OK)
        "db2" [] [] :=
  C10_dbname_has_no_effect _ _ "db1" "db2" [] [] (by decide)

end Mongo
